import Mathlib

/-!
Shallow embedding of `src/main.py` (ELEC0148 lab component): a script that
loads a CSV table of solar-cell measurements with pandas and renders JV
(current-density vs voltage) and power-vs-voltage charts with matplotlib.

Modelling conventions:
* Python floats are modelled as exact rationals (`ℚ`).
* A pandas `DataFrame` produced by `pd.read_csv` is a header row plus the
  list of data rows (`pd.read_csv` consumes the first physical row of the
  file as the header).
* `pd.to_numeric` applied to a series is elementwise parsing with failure
  propagation; the cell-level parser is an abstract parameter
  `toNum : Cell → Option ℚ`, since its code lives in pandas, not in this
  repository.  Likewise the `tab20` colormap is an abstract parameter
  `cmap : ℚ → Color`.
* Exceptions that the script does not catch (missing column, parse failure)
  make the whole call produce `none`.
* The observable effect of a `plot_intensities` call is collected into a
  `PlotOutput` record: the drawn curves, tick positions, titles/labels, MPP
  overlay artists and the legend entries.
-/

/-- Elementwise application of a fallible function to a list, failing if any
element fails.  This is the Option-monad plumbing used to model pandas
elementwise operations (`pd.to_numeric` over a series, reading one column of
every row). -/
def traverseOption {α β : Type} (f : α → Option β) : List α → Option (List β)
  | [] => some []
  | x :: xs =>
    (f x).bind fun b => (traverseOption f xs).bind fun bs => some (b :: bs)

/-- In-memory table as produced by `pd.read_csv` (src/main.py line 17): the
header row (column names) and the data rows. -/
structure DataFrame (Cell : Type) where
  header : List Cell
  rows : List (List Cell)
deriving DecidableEq

/-- `pd.read_csv` on the physical rows of an existing file: the first
physical row becomes the header, the remaining physical rows become the
data rows. -/
def read_csv {Cell : Type} (content : List (List Cell)) : DataFrame Cell :=
  { header := content.headD [], rows := content.tail }

/-- Outcome of the loader: either a dataframe or a process exit carrying the
printed message and the process exit status. -/
inductive LoadResult (Cell : Type) where
  | ok (df : DataFrame Cell)
  | exited (message : String) (code : Nat)
deriving DecidableEq

/-- `read_csv_exception` (src/main.py lines 7-21): try to parse the file at
`path`; on `FileNotFoundError` print `"Can't find:\n{path}"` and call
`sys.exit()`.  `sys.exit()` with no argument raises `SystemExit(None)`,
which terminates the process with exit status `0` (the success status).
The file system is modelled as a partial map from paths to file contents. -/
def read_csv_exception {Cell : Type}
    (files : String → Option (List (List Cell))) (path : String) :
    LoadResult Cell :=
  match files path with
  | some content => .ok (read_csv content)
  | none => .exited ("Can\'t find:\n" ++ path) 0

/-- The exit status recorded in a `LoadResult`, if the loader exited. -/
def exit_code {Cell : Type} : LoadResult Cell → Option Nat
  | .ok _ => none
  | .exited _ c => some c

/-- Column `j` of the data rows: one cell from each row, failing if a row
has no column `j`. -/
def get_col {Cell : Type} (j : Nat) (rows : List (List Cell)) :
    Option (List Cell) :=
  traverseOption (fun r => r.get? j) rows

/-- `df.iloc[:, j]`: positional column access, an `IndexError` (modelled as
`none`) when `j` is not within the frame's columns. -/
def iloc_col {Cell : Type} (df : DataFrame Cell) (j : Nat) :
    Option (List Cell) :=
  if j < df.header.length then get_col j df.rows else none

/-- `pd.to_numeric(df.iloc[:, j][1:])` (src/main.py lines 37 and 40): read
column `j`, drop the first entry of the series (`[1:]` is positional), and
parse every remaining cell as a number. -/
def column_vals {Cell : Type} (toNum : Cell → Option ℚ)
    (df : DataFrame Cell) (j : Nat) : Option (List ℚ) :=
  (iloc_col df j).bind fun col => traverseOption toNum (col.drop 1)

/-- `n_colours = 12` (src/main.py line 26). -/
def n_colours : ℚ := 12

/-- `cmap((key / 4) / n_colours)` (src/main.py line 34): the colour of the
curve for intensity column `key`, a function of `key` alone. -/
def colour_of {Color : Type} (cmap : ℚ → Color) (key : Nat) : Color :=
  cmap (((key : ℚ) / 4) / n_colours)

/-- One rendered intensity curve: its colour, legend label and the plotted
`(voltage, y)` points. -/
structure Curve (Color : Type) where
  colour : Color
  label : String
  points : List (ℚ × ℚ)
deriving DecidableEq

/-- One iteration of the `for key, value in intensities.items()` loop
(src/main.py lines 31-53) for `kv = (key, value)`: extract voltage from
column `key` and current from column `key + 1` (both with the `[1:]` slice),
convert A to mA, and plot either power = voltage * current (mA) in power
mode or current density = current (mA) / area otherwise. -/
def plot_curve {Cell Color : Type} (toNum : Cell → Option ℚ)
    (cmap : ℚ → Color) (df : DataFrame Cell) (area : ℚ) (power : Bool)
    (kv : Nat × String) : Option (Curve Color) :=
  (column_vals toNum df kv.1).bind fun voltage_vals =>
    (column_vals toNum df (kv.1 + 1)).bind fun currentA =>
      let current_vals := currentA.map (fun c => c * 1000)
      let current_density_vals := current_vals.map (fun c => c / area)
      some (if power then
        { colour := colour_of cmap kv.1, label := kv.2,
          points :=
            voltage_vals.zip (voltage_vals.zipWith (fun v c => v * c)
              current_vals) }
      else
        { colour := colour_of cmap kv.1, label := kv.2,
          points := voltage_vals.zip current_density_vals })

/-- The whole intensities loop, in the mapping's iteration order; a Python
exception in one iteration (modelled as `none`) aborts the call. -/
def plot_curves {Cell Color : Type} (toNum : Cell → Option ℚ)
    (cmap : ℚ → Color) (df : DataFrame Cell) (area : ℚ) (power : Bool) :
    List (Nat × String) → Option (List (Curve Color))
  | [] => some []
  | kv :: rest =>
    (plot_curve toNum cmap df area power kv).bind fun c =>
      (plot_curves toNum cmap df area power rest).bind fun cs =>
        some (c :: cs)

/-- `MPP_y` (src/main.py lines 100-104) for an entry `item = [V, I]`:
`item[1] * item[0]` (power = current * voltage) in power mode,
`item[1] / area` (current density) otherwise. -/
def mpp_y (area : ℚ) (power : Bool) (item : ℚ × ℚ) : ℚ :=
  if power then item.2 * item.1 else item.2 / area

/-- The artists drawn for one MPP entry: the marker point, the horizontal
and vertical dashed guide segments, and the text label with its anchor. -/
structure MppMarker where
  percent : Nat
  marker : ℚ × ℚ
  hline : (ℚ × ℚ) × (ℚ × ℚ)
  vline : (ℚ × ℚ) × (ℚ × ℚ)
  text : (ℚ × ℚ) × String
deriving DecidableEq

/-- One iteration of the MPP loop (src/main.py lines 99-121) for
`e = (key, (V, I))`: marker at `(V, MPP_y)`, dashed line from `(0, MPP_y)`
to `(V, MPP_y)`, dashed line from `(V, 0)` to `(V, MPP_y)`, and the text
`"MPP {key}%"` at `(V, MPP_y - offset)`. -/
def mpp_marker (area : ℚ) (power : Bool) (e : Nat × ℚ × ℚ) : MppMarker :=
  let y := mpp_y area power e.2
  let off : ℚ := if power then 15 / 100 else 3
  { percent := e.1, marker := (e.2.1, y),
    hline := ((0, y), (e.2.1, y)),
    vline := ((e.2.1, 0), (e.2.1, y)),
    text := ((e.2.1, y - off), "MPP " ++ toString e.1 ++ "%") }

/-- The `if MPP:` block (src/main.py lines 98-121).  `MPP` defaults to
`None`; the truthiness test skips the block for `None` and for an empty
mapping alike. -/
def mpp_overlay (area : ℚ) (power : Bool) :
    Option (List (Nat × ℚ × ℚ)) → List MppMarker
  | none => []
  | some l => if l.isEmpty then [] else l.map (mpp_marker area power)

/-- `x_vals = [((i * 0.05) - 0.5) for i in range(35)]` (src/main.py line 68):
the x-axis tick positions, used in both modes. -/
def x_vals : List ℚ :=
  (List.range 35).map (fun i => (i : ℚ) * (5 / 100) - 5 / 10)

/-- `y_vals = [((i * 0.1) - 1) for i in range(37)]` (src/main.py line 82):
the y-axis tick positions in power mode. -/
def y_vals_power : List ℚ :=
  (List.range 37).map (fun i => (i : ℚ) * (1 / 10) - 1)

/-- `range(-26, 50, 2)` (src/main.py line 94): the y-axis tick positions in
JV mode. -/
def y_vals_jv : List ℚ :=
  (List.range 38).map (fun i => (i : ℚ) * 2 - 26)

/-- Everything `plot_intensities` draws on one figure. -/
structure PlotOutput (Color : Type) where
  curves : List (Curve Color)
  xticks : List ℚ
  yticks : List ℚ
  title : String
  xlabel : String
  ylabel : String
  mpp : List MppMarker
  legend : List String
deriving DecidableEq

/-- `plot_intensities(df, area, intensities, power=False, MPP=None)`
(src/main.py lines 24-132): draw one curve per intensity entry, set the
fixed ticks, titles and labels for the chosen mode, draw the optional MPP
overlay, and build the legend from the plotted curves' labels.  An uncaught
exception while extracting data (modelled as `none`) aborts the call. -/
def plot_intensities {Cell Color : Type} (toNum : Cell → Option ℚ)
    (cmap : ℚ → Color) (df : DataFrame Cell) (area : ℚ)
    (intensities : List (Nat × String)) (power : Bool)
    (MPP : Option (List (Nat × ℚ × ℚ))) : Option (PlotOutput Color) :=
  (plot_curves toNum cmap df area power intensities).bind fun curves =>
    some
      { curves := curves
        xticks := x_vals
        yticks := if power then y_vals_power else y_vals_jv
        title :=
          if power then
            "Power-Voltage plot of Light Intensities of Perovskite Solar Cell"
          else
            "JV curve of Light Intensities of a Perovskite Solar Cell"
        xlabel := "Voltage / V"
        ylabel :=
          if power then "Power / mW" else "Current Density / mAcm$^{-2}$"
        mpp := mpp_overlay area power MPP
        legend := curves.map Curve.label }

/-- `intensity_all` (src/main.py lines 139-152). -/
def intensity_all : List (Nat × String) :=
  [(0, "Light intensity 1%"), (4, "Light intensity 3%"),
   (8, "Light intensity 10%"), (12, "Light intensity 16%"),
   (16, "Light intensity 25%"), (20, "Light intensity 32%"),
   (24, "Light intensity 40%"), (28, "Light intensity 50%"),
   (32, "Light intensity 63%"), (36, "Light intensity 79%"),
   (40, "Light intensity 93%"), (44, "Light intensity 100%")]

/-- `intensity_10_50_100` (src/main.py lines 155-159). -/
def intensity_10_50_100 : List (Nat × String) :=
  [(8, "Light intensity 10%"), (28, "Light intensity 50%"),
   (44, "Light intensity 100%")]

/-- `max_power_points` (src/main.py lines 162-166), entries `(pct, (V, I))`. -/
def max_power_points : List (Nat × ℚ × ℚ) :=
  [(10, (85 / 100, -(11 / 100))), (50, (89 / 100, -(51 / 100))),
   (100, (89 / 100, -(97 / 100)))]

/-- `solar_cell_area = 0.045` (src/main.py line 169). -/
def solar_cell_area : ℚ := 45 / 1000

/-!
State-threading variant of the renderer, for the frame property: every
access `plot_intensities` makes to the dataframe is threaded through a
`(result, table)` pair, so that "the call performs no write" is the theorem
that the threaded table comes back unchanged.  Each primitive below mirrors
the corresponding pure definition and returns the table it leaves behind.
-/

/-- `df.iloc[:, j]` as a read on the threaded table. -/
def iloc_col_run {Cell : Type} (df : DataFrame Cell) (j : Nat) :
    Option (List Cell) × DataFrame Cell :=
  (iloc_col df j, df)

/-- `pd.to_numeric(df.iloc[:, j][1:])` on the threaded table. -/
def column_vals_run {Cell : Type} (toNum : Cell → Option ℚ)
    (df : DataFrame Cell) (j : Nat) : Option (List ℚ) × DataFrame Cell :=
  let r := iloc_col_run df j
  (r.1.bind fun col => traverseOption toNum (col.drop 1), r.2)

/-- One loop iteration on the threaded table: the voltage-column read
happens first, then the current-column read on the table the first read
left behind. -/
def plot_curve_run {Cell Color : Type} (toNum : Cell → Option ℚ)
    (cmap : ℚ → Color) (df : DataFrame Cell) (area : ℚ) (power : Bool)
    (kv : Nat × String) : Option (Curve Color) × DataFrame Cell :=
  let v := column_vals_run toNum df kv.1
  let c := column_vals_run toNum v.2 (kv.1 + 1)
  ((v.1.bind fun voltage_vals => c.1.bind fun currentA =>
      let current_vals := currentA.map (fun x => x * 1000)
      let current_density_vals := current_vals.map (fun x => x / area)
      some (if power then
        { colour := colour_of cmap kv.1, label := kv.2,
          points :=
            voltage_vals.zip (voltage_vals.zipWith (fun x y => x * y)
              current_vals) }
      else
        { colour := colour_of cmap kv.1, label := kv.2,
          points := voltage_vals.zip current_density_vals })), c.2)

/-- The intensities loop on the threaded table; a raised exception
(`none`) aborts the loop with the table as the failing iteration left it. -/
def plot_curves_run {Cell Color : Type} (toNum : Cell → Option ℚ)
    (cmap : ℚ → Color) (area : ℚ) (power : Bool) :
    DataFrame Cell → List (Nat × String) →
      Option (List (Curve Color)) × DataFrame Cell
  | df, [] => (some [], df)
  | df, kv :: rest =>
    let p := plot_curve_run toNum cmap df area power kv
    match p.1 with
    | none => (none, p.2)
    | some c =>
      let q := plot_curves_run toNum cmap area power p.2 rest
      (q.1.bind fun cs => some (c :: cs), q.2)

/-- `plot_intensities` on the threaded table. -/
def plot_intensities_run {Cell Color : Type} (toNum : Cell → Option ℚ)
    (cmap : ℚ → Color) (df : DataFrame Cell) (area : ℚ)
    (intensities : List (Nat × String)) (power : Bool)
    (MPP : Option (List (Nat × ℚ × ℚ))) :
    Option (PlotOutput Color) × DataFrame Cell :=
  let r := plot_curves_run toNum cmap area power df intensities
  (r.1.bind fun curves =>
    some
      { curves := curves
        xticks := x_vals
        yticks := if power then y_vals_power else y_vals_jv
        title :=
          if power then
            "Power-Voltage plot of Light Intensities of Perovskite Solar Cell"
          else
            "JV curve of Light Intensities of a Perovskite Solar Cell"
        xlabel := "Voltage / V"
        ylabel :=
          if power then "Power / mW" else "Current Density / mAcm$^{-2}$"
        mpp := mpp_overlay area power MPP
        legend := curves.map Curve.label }, r.2)

/-- The spec's enumerated x-axis tick values: −0.5 to 1.2 in steps of 0.05,
35 values. -/
def spec_xticks : List ℚ :=
  [-(5/10), -(45/100), -(4/10), -(35/100), -(3/10), -(25/100), -(2/10),
   -(15/100), -(1/10), -(5/100), 0, 5/100, 1/10, 15/100, 2/10, 25/100,
   3/10, 35/100, 4/10, 45/100, 5/10, 55/100, 6/10, 65/100, 7/10, 75/100,
   8/10, 85/100, 9/10, 95/100, 1, 105/100, 11/10, 115/100, 12/10]

/-- The spec's enumerated JV-mode y-axis tick values: the integers −26 to 48
in steps of 2. -/
def spec_yticks_jv : List ℚ :=
  [-26, -24, -22, -20, -18, -16, -14, -12, -10, -8, -6, -4, -2, 0, 2, 4, 6,
   8, 10, 12, 14, 16, 18, 20, 22, 24, 26, 28, 30, 32, 34, 36, 38, 40, 42,
   44, 46, 48]

/-- The spec's enumerated power-mode y-axis tick values: −1.0 to 2.6 in
steps of 0.1, 37 values. -/
def spec_yticks_power : List ℚ :=
  [-1, -(9/10), -(8/10), -(7/10), -(6/10), -(5/10), -(4/10), -(3/10),
   -(2/10), -(1/10), 0, 1/10, 2/10, 3/10, 4/10, 5/10, 6/10, 7/10, 8/10,
   9/10, 1, 11/10, 12/10, 13/10, 14/10, 15/10, 16/10, 17/10, 18/10, 19/10,
   2, 21/10, 22/10, 23/10, 24/10, 25/10, 26/10]

/-!
Concrete fixtures used to evaluate the development on explicit inputs.
Cells are taken to be rationals with the identity parser, and the colormap
is instantiated with the identity function on `ℚ`.
-/

/-- A three-physical-row file: a header row, a first data row and a second
data row, two columns wide. -/
def cont3 : List (List ℚ) := [[10, 20], [1/2, 1/500], [7/10, 1/1000]]

/-- A file whose single data row after the header holds voltage `0.5` in
column 8 and current `0.002` in column 9. -/
def cont_one_row : List (List ℚ) :=
  [[0, 0, 0, 0, 0, 0, 0, 0, 0, 0], [0, 0, 0, 0, 0, 0, 0, 0, 1/2, 1/500]]

/-- Like `cont_one_row` but with an extra first data row, so that the row
holding `[0.5, 0.002]` is the one the `[1:]` slice keeps. -/
def cont_two_rows : List (List ℚ) :=
  [[0, 0, 0, 0, 0, 0, 0, 0, 0, 0], [0, 0, 0, 0, 0, 0, 0, 0, 0, 0],
   [0, 0, 0, 0, 0, 0, 0, 0, 1/2, 1/500]]

/-- A three-row, two-column file whose kept data row holds voltage `0.3`
and current `0.001`. -/
def df4 : DataFrame ℚ := read_csv [[0, 0], [0, 0], [3/10, 1/1000]]

/-- A header-only file wide enough for every column of `intensity_all`. -/
def df46 : DataFrame ℚ := read_csv [(List.range 46).map fun i => (i : ℚ)]

/-- A placeholder output, used only as the default of `Option.getD`. -/
def emptyOutput (Color : Type) : PlotOutput Color :=
  { curves := [], xticks := [], yticks := [], title := "", xlabel := "",
    ylabel := "", mpp := [], legend := [] }

/-- The full-set JV chart over the header-only fixture. -/
def o_all : PlotOutput ℚ :=
  (plot_intensities (fun q : ℚ => some q) (fun q : ℚ => q) df46
    solar_cell_area intensity_all false none).getD (emptyOutput ℚ)

/-- The 10/50/100% subset JV chart over the header-only fixture. -/
def o_subset : PlotOutput ℚ :=
  (plot_intensities (fun q : ℚ => some q) (fun q : ℚ => q) df46
    solar_cell_area intensity_10_50_100 false none).getD (emptyOutput ℚ)

/-- A minimal JV chart over a header-only two-cell file with no curves. -/
def o_ticks : PlotOutput ℚ :=
  (plot_intensities (fun q : ℚ => some q) (fun q : ℚ => q)
    (read_csv [[(0 : ℚ)]]) 1 [] false none).getD (emptyOutput ℚ)

/-!
General lemmas about the embedding.
-/

/-- A successful elementwise traversal preserves length. -/
theorem traverseOption_length {α β : Type} (f : α → Option β) :
    ∀ (xs : List α) (ys : List β), traverseOption f xs = some ys →
      ys.length = xs.length
  | [], ys, h => by
    simp only [traverseOption, Option.some.injEq] at h
    simp [← h]
  | x :: xs, ys, h => by
    simp only [traverseOption, Option.bind_eq_some, Option.some.injEq] at h
    obtain ⟨b, _, bs, hbs, rfl⟩ := h
    simp [traverseOption_length f xs bs hbs]

/-- Entry `i` of a successful elementwise traversal is the traversal of
entry `i`. -/
theorem traverseOption_getElem? {α β : Type} (f : α → Option β) :
    ∀ (xs : List α) (ys : List β), traverseOption f xs = some ys →
      ∀ (i : Nat), ys[i]? = (xs[i]?).bind f
  | [], ys, h, i => by
    simp only [traverseOption, Option.some.injEq] at h
    simp [← h]
  | x :: xs, ys, h, i => by
    simp only [traverseOption, Option.bind_eq_some, Option.some.injEq] at h
    obtain ⟨b, hb, bs, hbs, rfl⟩ := h
    cases i with
    | zero => simp [hb]
    | succ n => simpa using traverseOption_getElem? f xs bs hbs n

/-- A successfully extracted numeric column has one value per data row
except the first (the `[1:]` slice). -/
theorem column_vals_length {Cell : Type} (toNum : Cell → Option ℚ)
    (df : DataFrame Cell) (j : Nat) (vs : List ℚ)
    (h : column_vals toNum df j = some vs) :
    vs.length = df.rows.length - 1 := by
  simp only [column_vals, iloc_col, Option.bind_eq_some] at h
  obtain ⟨col, hcol, hv⟩ := h
  split at hcol
  · have h1 := traverseOption_length _ _ _ hcol
    have h2 := traverseOption_length _ _ _ hv
    rw [h2, List.length_drop, h1]
  · simp at hcol


/-- Value `i` of a numeric column extracted from a freshly parsed file is
the parse of the cell in column `j` of physical row `i + 2`: one physical
row is consumed as the header by `pd.read_csv` and one more is dropped by
the `[1:]` slice. -/
theorem column_vals_getElem? {Cell : Type} (toNum : Cell → Option ℚ)
    (content : List (List Cell)) (j : Nat) (vs : List ℚ)
    (h : column_vals toNum (read_csv content) j = some vs) :
    ∀ (i : Nat), vs[i]? = ((content[i + 2]?).bind fun r => r.get? j).bind toNum := by
  simp only [column_vals, Option.bind_eq_some] at h
  obtain ⟨col, hcol, hv⟩ := h
  simp only [iloc_col] at hcol
  split at hcol
  · intro i
    have h1 := traverseOption_getElem? _ _ _ hv i
    have h2 := traverseOption_getElem? _ _ _ hcol (i + 1)
    rw [h1, List.drop_one, List.getElem?_tail, h2]
    simp only [read_csv, List.getElem?_tail]
  · simp at hcol

/-- Every curve the loop produces carries the colour
`cmap((key / 4) / n_colours)` of its own column index. -/
theorem plot_curves_colour {Cell Color : Type} (toNum : Cell → Option ℚ)
    (cmap : ℚ → Color) (df : DataFrame Cell) (area : ℚ) (power : Bool) :
    ∀ (l : List (Nat × String)) (cs : List (Curve Color)),
      plot_curves toNum cmap df area power l = some cs →
      cs.map Curve.colour = l.map fun kv => colour_of cmap kv.1
  | [], cs, h => by
    simp only [plot_curves, Option.some.injEq] at h
    simp [← h]
  | kv :: rest, cs, h => by
    simp only [plot_curves, Option.bind_eq_some, Option.some.injEq] at h
    obtain ⟨c, hc, cs', hcs', rfl⟩ := h
    have hcol : c.colour = colour_of cmap kv.1 := by
      simp only [plot_curve, Option.bind_eq_some, Option.some.injEq] at hc
      obtain ⟨v, _, a, _, rfl⟩ := hc
      cases power <;> simp
    simp [hcol, plot_curves_colour toNum cmap df area power rest cs' hcs']

/-- The threaded intensities loop returns the table unchanged. -/
theorem plot_curves_run_preserves {Cell Color : Type} (toNum : Cell → Option ℚ)
    (cmap : ℚ → Color) (area : ℚ) (power : Bool) :
    ∀ (l : List (Nat × String)) (df : DataFrame Cell),
      (@plot_curves_run Cell Color toNum cmap area power df l).2 = df
  | [], df => rfl
  | kv :: rest, df => by
    simp only [plot_curves_run]
    cases hp : (@plot_curve_run Cell Color toNum cmap df area power kv).1 with
    | none => rfl
    | some c =>
      simpa using plot_curves_run_preserves toNum cmap area power rest _

/-- The threaded loop computes the same curves as the pure loop. -/
theorem plot_curves_run_fst {Cell Color : Type} (toNum : Cell → Option ℚ)
    (cmap : ℚ → Color) (area : ℚ) (power : Bool) :
    ∀ (l : List (Nat × String)) (df : DataFrame Cell),
      (plot_curves_run toNum cmap area power df l).1 =
        @plot_curves Cell Color toNum cmap df area power l
  | [], df => rfl
  | kv :: rest, df => by
    simp only [plot_curves_run, plot_curves]
    cases hp : (@plot_curve_run Cell Color toNum cmap df area power kv).1 with
    | none =>
      have h : @plot_curve Cell Color toNum cmap df area power kv = none := hp
      simp [h]
    | some c =>
      have hc : @plot_curve Cell Color toNum cmap df area power kv = some c :=
        hp
      have hdf : (@plot_curve_run Cell Color toNum cmap df area power kv).2
          = df := rfl
      rw [hdf]
      simp [hc, plot_curves_run_fst toNum cmap area power rest df]

/-- The x-axis tick positions are the spec's 35 enumerated values. -/
theorem x_vals_enumerated : x_vals = spec_xticks := by
  norm_num [x_vals, spec_xticks, List.range_succ]

/-- The JV-mode y-axis tick positions are the spec's 38 enumerated values. -/
theorem y_vals_jv_enumerated : y_vals_jv = spec_yticks_jv := by
  norm_num [y_vals_jv, spec_yticks_jv, List.range_succ]

/-- The power-mode y-axis tick positions are the spec's 37 enumerated
values. -/
theorem y_vals_power_enumerated : y_vals_power = spec_yticks_power := by
  norm_num [y_vals_power, spec_yticks_power, List.range_succ]

/-!
The claims.
-/

/-- C3 (amended): for every file system and path with no file at that path,
the loader prints a diagnostic naming the path and terminates the process
without raising to the caller and without reaching parsing — but with exit
status `0` (the default status of `sys.exit()`), not a non-zero/failure
status. -/
theorem missing_file_prints_and_exits {Cell : Type}
    (files : String → Option (List (List Cell))) (path : String)
    (h : files path = none) :
    read_csv_exception files path =
      LoadResult.exited ("Can\'t find:\n" ++ path) 0 := by
  simp [read_csv_exception, h]

/-- C3 (counterexample): on a file system with no file at the hardcoded
path, the loader exits with status `0`; the claim's non-zero/failure exit
status is refuted at this input. -/
theorem missing_file_exit_status_zero :
    read_csv_exception (fun _ => (none : Option (List (List ℚ))))
        "CSV Data File.csv"
      = LoadResult.exited ("Can\'t find:\nCSV Data File.csv") 0 ∧
    ¬ ∃ m c, c ≠ 0 ∧
        read_csv_exception (fun _ => (none : Option (List (List ℚ))))
            "CSV Data File.csv" = LoadResult.exited m c := by
  refine ⟨rfl, ?_⟩
  rintro ⟨m, c, hc, he⟩
  simp only [read_csv_exception, LoadResult.exited.injEq] at he
  exact hc he.2.symm

/-- C3 (witness): the amended theorem applied to the file system with no
files and the script's hardcoded path. -/
theorem missing_file_prints_and_exits_witness :
    ((fun _ => (none : Option (List (List ℚ)))) "CSV Data File.csv"
        = none) ∧
    read_csv_exception (fun _ => (none : Option (List (List ℚ))))
        "CSV Data File.csv"
      = LoadResult.exited ("Can\'t find:\n" ++ "CSV Data File.csv") 0 :=
  ⟨rfl, missing_file_prints_and_exits _ _ rfl⟩

/-- C9: `plot_intensities` never modifies its input table: threading the
dataframe through every access the call performs returns it unchanged, for
every dataframe, area, intensity map, mode and MPP map. -/
theorem plot_intensities_preserves_table {Cell Color : Type}
    (toNum : Cell → Option ℚ) (cmap : ℚ → Color) (df : DataFrame Cell)
    (area : ℚ) (intensities : List (Nat × String)) (power : Bool)
    (MPP : Option (List (Nat × ℚ × ℚ))) :
    (plot_intensities_run toNum cmap df area intensities power MPP).2 = df :=
  plot_curves_run_preserves toNum cmap area power intensities df

/-- C10: passing an empty MPP mapping behaves exactly like passing no MPP
mapping: the whole rendered chart is identical in the two runs. -/
theorem empty_mpp_like_none {Cell Color : Type} (toNum : Cell → Option ℚ)
    (cmap : ℚ → Color) (df : DataFrame Cell) (area : ℚ)
    (intensities : List (Nat × String)) (power : Bool) :
    plot_intensities toNum cmap df area intensities power (some []) =
      plot_intensities toNum cmap df area intensities power none := rfl

/-- C1 (amended): for every input file, extracting the curve for intensity
key `k` reads voltage from column `k` and current from column `k + 1`, and
data value `i` is the cell of physical row `i + 2` of the file: the header
row is consumed by `pd.read_csv` and the `[1:]` slice drops one more row,
so data index 0 is the third physical row — two rows, not one, are skipped
before numeric conversion. -/
theorem extraction_columns_and_row_offset {Cell : Type}
    (toNum : Cell → Option ℚ) (content : List (List Cell)) (k : Nat)
    (volts currentA : List ℚ)
    (hv : column_vals toNum (read_csv content) k = some volts)
    (hc : column_vals toNum (read_csv content) (k + 1) = some currentA) :
    (∀ (i : Nat), volts[i]? =
        ((content[i + 2]?).bind fun r => r.get? k).bind toNum) ∧
    (∀ (i : Nat), currentA[i]? =
        ((content[i + 2]?).bind fun r => r.get? (k + 1)).bind toNum) :=
  ⟨column_vals_getElem? toNum content k volts hv,
   column_vals_getElem? toNum content (k + 1) currentA hc⟩

/-- C1 (counterexample): on a three-physical-row file, the first data value
used is the third physical row's cell `7/10`, not the second physical row's
cell `1/2`: two rows are skipped, not one. -/
theorem extraction_first_value_third_row :
    column_vals (fun q : ℚ => some q) (read_csv cont3) 0 = some [7/10] ∧
    cont3[1]? = some [(1 : ℚ)/2, 1/500] ∧
    ((7 : ℚ)/10) ≠ 1/2 :=
  ⟨rfl, rfl, by norm_num⟩

/-- C1 (witness): the amended theorem applied to the concrete file
`cont3`. -/
theorem extraction_columns_and_row_offset_witness :
    (column_vals (fun q : ℚ => some q) (read_csv cont3) 0 = some [7/10]) ∧
    (column_vals (fun q : ℚ => some q) (read_csv cont3) 1 = some [1/1000]) ∧
    ((∀ (i : Nat), [(7 : ℚ)/10][i]? =
        ((cont3[i + 2]?).bind fun r => r.get? 0).bind fun q : ℚ => some q) ∧
     (∀ (i : Nat), [(1 : ℚ)/1000][i]? =
        ((cont3[i + 2]?).bind fun r => r.get? 1).bind fun q : ℚ => some q)) :=
  ⟨rfl, rfl,
   extraction_columns_and_row_offset (fun q : ℚ => some q) cont3 0 _ _ rfl rfl⟩

/-- C4: in JV mode the plotted y-values of a curve are exactly the parsed
current cells mapped elementwise through the linear map
`a ↦ a * 1000 / area` (amperes to milliamps, then divided by the cell
area). -/
theorem current_density_linear {Cell Color : Type} (toNum : Cell → Option ℚ)
    (cmap : ℚ → Color) (df : DataFrame Cell) (area : ℚ) (k : Nat)
    (label : String) (currentA : List ℚ) (c : Curve Color)
    (hA : column_vals toNum df (k + 1) = some currentA)
    (hc : plot_curve toNum cmap df area false (k, label) = some c) :
    c.points.map Prod.snd = currentA.map fun a => a * 1000 / area := by
  simp only [plot_curve, Option.bind_eq_some, Option.some.injEq] at hc
  obtain ⟨volts, hv, amps, ha, rfl⟩ := hc
  rw [hA, Option.some.injEq] at ha
  subst ha
  have hlv := column_vals_length _ _ _ _ hv
  have hla := column_vals_length _ _ _ _ hA
  rw [List.map_map]
  simp only [Bool.false_eq_true, if_false]
  rw [List.map_snd_zip]
  · simp [Function.comp]
  · simp [hlv, hla]

/-- C4 (witness): the theorem applied to the concrete file `df4` with
current 0.001 A and area 0.045, giving current density 200/9 ≈ 22.22. -/
theorem current_density_linear_witness :
    (column_vals (fun q : ℚ => some q) df4 1 = some [1/1000]) ∧
    (plot_curve (fun q : ℚ => some q) (fun q : ℚ => q) df4 (45/1000) false
        (0, "x") = some ⟨0, "x", [(3/10, 200/9)]⟩) ∧
    ([((3 : ℚ)/10, (200 : ℚ)/9)].map Prod.snd =
      [(1 : ℚ)/1000].map fun a => a * 1000 / (45/1000)) ∧
    ((1 : ℚ)/1000) * 1000 / (45/1000) = 200/9 := by
  have h2 : plot_curve (fun q : ℚ => some q) (fun q : ℚ => q) df4 (45/1000)
      false (0, "x") = some ⟨0, "x", [(3/10, 200/9)]⟩ := by
    norm_num [plot_curve, column_vals, iloc_col, get_col, traverseOption,
      df4, read_csv, colour_of, n_colours]
  exact ⟨rfl, h2,
    current_density_linear (fun q : ℚ => some q) (fun q : ℚ => q) df4
      (45/1000) 0 "x" [1/1000] ⟨0, "x", [(3/10, 200/9)]⟩ rfl h2,
    by norm_num⟩

/-- C2 (counterexample): with intensity map `{8: "Light intensity 10%"}`
and a table whose only data row after the header is `[V=0.5, I=0.002]`, the
rendered curve has no points at all — the `[1:]` slice drops that single
row — so it contains neither `(0.5, 44.44)` in JV mode nor `(0.5, 1.0)` in
power mode. -/
theorem single_data_row_plots_no_points :
    ((plot_intensities (fun q : ℚ => some q) (fun q : ℚ => q)
        (read_csv cont_one_row) (45/1000) [(8, "Light intensity 10%")]
        false none).map fun o => o.curves.map Curve.points) = some [[]] ∧
    ((plot_intensities (fun q : ℚ => some q) (fun q : ℚ => q)
        (read_csv cont_one_row) (45/1000) [(8, "Light intensity 10%")]
        true none).map fun o => o.curves.map Curve.points) = some [[]] :=
  ⟨rfl, rfl⟩

/-- C2 (amended): with intensity map `{8: "Light intensity 10%"}`, area
0.045, and a table whose header is followed by a first (sliced-away) data
row and then the data row `[V=0.5, I=0.002]` in columns 8 and 9, the
rendered curve is exactly the point `(0.5, 400/9 ≈ 44.44)` in JV mode and
exactly `(0.5, 1.0)` (power = 0.5 V × 2 mA = 1.0 mW) in power mode. -/
theorem second_data_row_end_to_end :
    ((plot_intensities (fun q : ℚ => some q) (fun q : ℚ => q)
        (read_csv cont_two_rows) (45/1000) [(8, "Light intensity 10%")]
        false none).map fun o => o.curves.map Curve.points)
      = some [[(1/2, 400/9)]] ∧
    ((plot_intensities (fun q : ℚ => some q) (fun q : ℚ => q)
        (read_csv cont_two_rows) (45/1000) [(8, "Light intensity 10%")]
        true none).map fun o => o.curves.map Curve.points)
      = some [[(1/2, 1)]] := by
  constructor <;>
    norm_num [plot_intensities, plot_curves, plot_curve, column_vals,
      iloc_col, get_col, traverseOption, read_csv, cont_two_rows,
      colour_of, n_colours, mpp_overlay]

/-- C5: the MPP overlay y-coordinate is `I * V` in power mode and
`I / area` in JV mode, for every entry; on the script's literal
`max_power_points` with area 0.045 this gives powers
`[-0.0935, -0.4539, -0.8633]` mW (the 50% entry `(V=0.89, I=−0.51)` giving
≈ −0.454) and current densities `[-22/9, -34/3, -194/9]` mA·cm⁻² (the 50%
entry giving −34/3 ≈ −11.33). -/
theorem mpp_y_power_and_density :
    (∀ (area : ℚ) (power : Bool) (l : List (Nat × ℚ × ℚ)),
      (mpp_overlay area power (some l)).map (fun m => m.marker.2) =
        l.map fun e => if power then e.2.2 * e.2.1 else e.2.2 / area) ∧
    (mpp_overlay solar_cell_area true (some max_power_points)).map
        (fun m => m.marker.2) =
      [-(187/2000), -(4539/10000), -(8633/10000)] ∧
    (mpp_overlay solar_cell_area false (some max_power_points)).map
        (fun m => m.marker.2) =
      [-(22/9), -(34/3), -(194/9)] := by
  refine ⟨?_, ?_, ?_⟩
  · intro area power l
    cases l with
    | nil => rfl
    | cons e rest => simp [mpp_overlay, mpp_marker, mpp_y]
  · norm_num [mpp_overlay, mpp_marker, mpp_y, max_power_points,
      solar_cell_area]
  · norm_num [mpp_overlay, mpp_marker, mpp_y, max_power_points,
      solar_cell_area]

/-- In power mode a single curve is independent of the area argument. -/
theorem plot_curve_power_area_eq {Cell Color : Type}
    (toNum : Cell → Option ℚ) (cmap : ℚ → Color) (df : DataFrame Cell)
    (area1 area2 : ℚ) (kv : Nat × String) :
    plot_curve toNum cmap df area1 true kv =
      @plot_curve Cell Color toNum cmap df area2 true kv := rfl

/-- In power mode the whole intensities loop is independent of the area
argument. -/
theorem plot_curves_power_area_eq {Cell Color : Type}
    (toNum : Cell → Option ℚ) (cmap : ℚ → Color) (df : DataFrame Cell)
    (area1 area2 : ℚ) :
    ∀ (l : List (Nat × String)),
      plot_curves toNum cmap df area1 true l =
        @plot_curves Cell Color toNum cmap df area2 true l
  | [] => rfl
  | kv :: rest => by
    simp only [plot_curves,
      @plot_curve_power_area_eq Cell Color toNum cmap df area1 area2 kv,
      @plot_curves_power_area_eq Cell Color toNum cmap df area1 area2 rest]

/-- In power mode the MPP overlay is independent of the area argument. -/
theorem mpp_overlay_power_area_eq (area1 area2 : ℚ)
    (M : Option (List (Nat × ℚ × ℚ))) :
    mpp_overlay area1 true M = mpp_overlay area2 true M := by
  cases M with
  | none => rfl
  | some l =>
    have h : mpp_marker area1 true = mpp_marker area2 true :=
      funext fun e => rfl
    simp only [mpp_overlay, h]

/-- C7: in power mode every plotted value — curve points and MPP overlay
alike — is independent of the (non-zero) area parameter: two runs that
differ only in the area render the same chart. -/
theorem power_mode_area_irrelevant {Cell Color : Type}
    (toNum : Cell → Option ℚ) (cmap : ℚ → Color) (df : DataFrame Cell)
    (intensities : List (Nat × String)) (M : Option (List (Nat × ℚ × ℚ)))
    (area1 area2 : ℚ) (h1 : area1 ≠ 0) (h2 : area2 ≠ 0) :
    plot_intensities toNum cmap df area1 intensities true M =
      plot_intensities toNum cmap df area2 intensities true M := by
  simp only [plot_intensities,
    plot_curves_power_area_eq toNum cmap df area1 area2 intensities,
    mpp_overlay_power_area_eq area1 area2 M]

/-- C7 (witness): the theorem applied to two concrete non-zero areas. -/
theorem power_mode_area_irrelevant_witness :
    ((45/1000 : ℚ) ≠ 0) ∧ ((1 : ℚ) ≠ 0) ∧
    plot_intensities (fun q : ℚ => some q) (fun q : ℚ => q)
        (read_csv [[(0 : ℚ)]]) (45/1000) [] true none =
      plot_intensities (fun q : ℚ => some q) (fun q : ℚ => q)
        (read_csv [[(0 : ℚ)]]) 1 [] true none :=
  ⟨by norm_num, by norm_num,
   power_mode_area_irrelevant (fun q : ℚ => some q) (fun q : ℚ => q)
     (read_csv [[(0 : ℚ)]]) [] none (45/1000) 1 (by norm_num) (by norm_num)⟩

/-- C8: the axis tick sequences of every rendered chart are the fixed
constant lists, independent of the data: the x-axis ticks are the 35 values
−0.5 … 1.2 in steps of 0.05 in every mode, and the y-axis ticks are the
integers −26 … 48 in steps of 2 in JV mode and the 37 values −1.0 … 2.6 in
steps of 0.1 in power mode. -/
theorem ticks_fixed {Cell Color : Type} (toNum : Cell → Option ℚ)
    (cmap : ℚ → Color) (df : DataFrame Cell) (area : ℚ)
    (intensities : List (Nat × String)) (power : Bool)
    (M : Option (List (Nat × ℚ × ℚ))) (o : PlotOutput Color)
    (h : plot_intensities toNum cmap df area intensities power M = some o) :
    o.xticks = spec_xticks ∧
    o.yticks = if power then spec_yticks_power else spec_yticks_jv := by
  simp only [plot_intensities, Option.bind_eq_some, Option.some.injEq] at h
  obtain ⟨cs, hcs, rfl⟩ := h
  refine ⟨x_vals_enumerated, ?_⟩
  cases power
  · simpa using y_vals_jv_enumerated
  · simpa using y_vals_power_enumerated

/-- C8 (witness): the theorem applied to a concrete chart. -/
theorem ticks_fixed_witness :
    (plot_intensities (fun q : ℚ => some q) (fun q : ℚ => q)
        (read_csv [[(0 : ℚ)]]) 1 [] false none = some o_ticks) ∧
    (o_ticks.xticks = spec_xticks ∧
     o_ticks.yticks = if false then spec_yticks_power else spec_yticks_jv) := by
  have h : plot_intensities (fun q : ℚ => some q) (fun q : ℚ => q)
      (read_csv [[(0 : ℚ)]]) 1 [] false none = some o_ticks := rfl
  exact ⟨h, ticks_fixed _ _ _ _ _ _ _ _ h⟩

/-- C6: the colour of every curve is `cmap((columnIndex / 4) / 12)`, a
function of its column index alone; hence the 10%, 50% and 100% curves of
the subset plot (positions 0, 1, 2) get exactly the colours of the
corresponding curves (positions 2, 7, 11) of the full 12-intensity plot,
for any two dataframes, areas, modes and MPP maps. -/
theorem subset_colour_stability {Cell1 Cell2 Color : Type}
    (toNum1 : Cell1 → Option ℚ) (toNum2 : Cell2 → Option ℚ)
    (cmap : ℚ → Color) (df1 : DataFrame Cell1) (df2 : DataFrame Cell2)
    (area1 area2 : ℚ) (power1 power2 : Bool)
    (M1 M2 : Option (List (Nat × ℚ × ℚ))) (o1 o2 : PlotOutput Color)
    (h1 : plot_intensities toNum1 cmap df1 area1 intensity_all power1 M1
        = some o1)
    (h2 : plot_intensities toNum2 cmap df2 area2 intensity_10_50_100 power2
        M2 = some o2) :
    o1.curves.map Curve.colour =
      intensity_all.map (fun kv => cmap (((kv.1 : ℚ) / 4) / n_colours)) ∧
    o2.curves.map Curve.colour =
      intensity_10_50_100.map
        (fun kv => cmap (((kv.1 : ℚ) / 4) / n_colours)) ∧
    (o2.curves.map Curve.colour)[0]? = (o1.curves.map Curve.colour)[2]? ∧
    (o2.curves.map Curve.colour)[1]? = (o1.curves.map Curve.colour)[7]? ∧
    (o2.curves.map Curve.colour)[2]? = (o1.curves.map Curve.colour)[11]? := by
  simp only [plot_intensities, Option.bind_eq_some, Option.some.injEq]
    at h1 h2
  obtain ⟨cs1, hcs1, rfl⟩ := h1
  obtain ⟨cs2, hcs2, rfl⟩ := h2
  have e1 := plot_curves_colour _ _ _ _ _ _ _ hcs1
  have e2 := plot_curves_colour _ _ _ _ _ _ _ hcs2
  refine ⟨?_, ?_, ?_, ?_, ?_⟩ <;>
    simp [e1, e2, colour_of, intensity_all, intensity_10_50_100]

/-- C6 (witness): the theorem applied to the full and subset plots over a
concrete header-only table, with the identity colormap. -/
theorem subset_colour_stability_witness :
    (plot_intensities (fun q : ℚ => some q) (fun q : ℚ => q) df46
        solar_cell_area intensity_all false none = some o_all) ∧
    (plot_intensities (fun q : ℚ => some q) (fun q : ℚ => q) df46
        solar_cell_area intensity_10_50_100 false none = some o_subset) ∧
    (o_all.curves.map Curve.colour =
        intensity_all.map (fun kv => ((kv.1 : ℚ) / 4) / n_colours) ∧
     o_subset.curves.map Curve.colour =
        intensity_10_50_100.map (fun kv => ((kv.1 : ℚ) / 4) / n_colours) ∧
     (o_subset.curves.map Curve.colour)[0]?
        = (o_all.curves.map Curve.colour)[2]? ∧
     (o_subset.curves.map Curve.colour)[1]?
        = (o_all.curves.map Curve.colour)[7]? ∧
     (o_subset.curves.map Curve.colour)[2]?
        = (o_all.curves.map Curve.colour)[11]?) := by
  have h1 : plot_intensities (fun q : ℚ => some q) (fun q : ℚ => q) df46
      solar_cell_area intensity_all false none = some o_all := rfl
  have h2 : plot_intensities (fun q : ℚ => some q) (fun q : ℚ => q) df46
      solar_cell_area intensity_10_50_100 false none = some o_subset := rfl
  exact ⟨h1, h2,
    subset_colour_stability _ _ _ _ _ _ _ _ _ _ _ _ _ h1 h2⟩
